import Mathlib

/-!
Formal model of the bithumbtradekit client library.

This file gives a shallow embedding, in Lean 4, of the request-signing and
response-shaping logic of the `bithumbtradekit` Python package:

- `BithumbClient._create_headers` (src/bithumbtradekit/client.py): the
  SHA-512 `query_hash` of the urlencoded parameters placed in the signed
  JWT payload.  SHA-512 and `urllib.parse.urlencode`/`quote_plus` are
  implemented in full so that concrete hashes can be evaluated.
- `BithumbClient.get/post/delete`: the transport layer, modelled as a
  function of the network outcome of the single HTTP call each performs.
- `Account.get_coin_balance` (account.py): the three-way balance outcome
  and the in-memory average-buy-price cache.
- `MarketData._get_candle_data` and `MarketData.get_current_price`
  (market.py): candle response checking and row normalization.
- `Trading._send_order`, `place_buy_order`, `place_sell_order`,
  `get_order_status` (trading.py): order body construction and order
  state reporting.

Numeric JSON fields are modelled as rationals (the exchange reports
decimal strings; Python's `float` parses them), and Python exceptions are
modelled with `Except`.
-/

/-! ## SHA-512 (Python `hashlib.sha512`), over byte lists -/

/-- Word size of the SHA-512 state: arithmetic is modulo `2 ^ 64`. -/
def U64 : Nat := 2 ^ 64

/-- Right rotation of a 64-bit word. -/
def rotr64 (n x : Nat) : Nat := ((x >>> n) ||| (x <<< (64 - n))) % U64

/-- SHA-512 Sigma-0 function. -/
def bigS0 (x : Nat) : Nat := rotr64 28 x ^^^ rotr64 34 x ^^^ rotr64 39 x

/-- SHA-512 Sigma-1 function. -/
def bigS1 (x : Nat) : Nat := rotr64 14 x ^^^ rotr64 18 x ^^^ rotr64 41 x

/-- SHA-512 sigma-0 function. -/
def smallS0 (x : Nat) : Nat := rotr64 1 x ^^^ rotr64 8 x ^^^ (x >>> 7)

/-- SHA-512 sigma-1 function. -/
def smallS1 (x : Nat) : Nat := rotr64 19 x ^^^ rotr64 61 x ^^^ (x >>> 6)

/-- SHA-512 choice function: bitwise `(x AND y) XOR (NOT x AND z)` on 64 bits. -/
def chFn (x y z : Nat) : Nat := (x &&& y) ^^^ ((x ^^^ (U64 - 1)) &&& z)

/-- SHA-512 majority function. -/
def majFn (x y z : Nat) : Nat := (x &&& y) ^^^ (x &&& z) ^^^ (y &&& z)

/-- The 80 SHA-512 round constants (FIPS 180-4). -/
def sha512K : List Nat :=
  [4794697086780616226, 8158064640168781261, 13096744586834688815, 16840607885511220156, 4131703408338449720,
   6480981068601479193, 10538285296894168987, 12329834152419229976, 15566598209576043074, 1334009975649890238,
   2608012711638119052, 6128411473006802146, 8268148722764581231, 9286055187155687089, 11230858885718282805,
   13951009754708518548, 16472876342353939154, 17275323862435702243, 1135362057144423861, 2597628984639134821,
   3308224258029322869, 5365058923640841347, 6679025012923562964, 8573033837759648693, 10970295158949994411,
   12119686244451234320, 12683024718118986047, 13788192230050041572, 14330467153632333762, 15395433587784984357,
   489312712824947311, 1452737877330783856, 2861767655752347644, 3322285676063803686, 5560940570517711597,
   5996557281743188959, 7280758554555802590, 8532644243296465576, 9350256976987008742, 10552545826968843579,
   11727347734174303076, 12113106623233404929, 14000437183269869457, 14369950271660146224, 15101387698204529176,
   15463397548674623760, 17586052441742319658, 1182934255886127544, 1847814050463011016, 2177327727835720531,
   2830643537854262169, 3796741975233480872, 4115178125766777443, 5681478168544905931, 6601373596472566643,
   7507060721942968483, 8399075790359081724, 8693463985226723168, 9568029438360202098, 10144078919501101548,
   10430055236837252648, 11840083180663258601, 13761210420658862357, 14299343276471374635, 14566680578165727644,
   15097957966210449927, 16922976911328602910, 17689382322260857208, 500013540394364858, 748580250866718886,
   1242879168328830382, 1977374033974150939, 2944078676154940804, 3659926193048069267, 4368137639120453308,
   4836135668995329356, 5532061633213252278, 6448918945643986474, 6902733635092675308, 7801388544844847127]

/-- The 8 initial SHA-512 hash values (FIPS 180-4). -/
def sha512H0 : List Nat :=
  [7640891576956012808, 13503953896175478587, 4354685564936845355,
   11912009170470909681, 5840696475078001361, 11170449401992604703,
   2270897969802886507, 6620516959819538809]

/-- Big-endian byte expansion of `v` into `n` bytes. -/
def beBytes (n v : Nat) : List Nat :=
  (List.range n).map (fun i => (v >>> (8 * (n - 1 - i))) % 256)

/-- SHA-512 message padding: append `0x80`, zeros, and a 128-bit big-endian
bit length, reaching a multiple of 128 bytes. -/
def sha512Pad (msg : List Nat) : List Nat :=
  msg ++ [0x80] ++ List.replicate ((128 - ((msg.length + 17) % 128)) % 128) 0 ++
    beBytes 16 (8 * msg.length)

/-- Big-endian word value of a byte list. -/
def beWord (bytes : List Nat) : Nat := bytes.foldl (fun a b => 256 * a + b) 0

/-- SHA-512 message schedule: the 16 block words extended to 80 words. -/
def sha512Schedule (block : List Nat) : List Nat :=
  let w16 := (List.range 16).map (fun i => beWord ((block.drop (8 * i)).take 8))
  (List.range 64).foldl
    (fun w _ =>
      let n := w.length
      w ++ [(smallS1 (w.getD (n - 2) 0) + w.getD (n - 7) 0 +
             smallS0 (w.getD (n - 15) 0) + w.getD (n - 16) 0) % U64])
    w16

/-- One SHA-512 compression round on the state `[a, b, c, d, e, f, g, h]`,
consuming a (schedule word, round constant) pair. -/
def sha512Round (st : List Nat) (wk : Nat × Nat) : List Nat :=
  let a := st.getD 0 0
  let b := st.getD 1 0
  let c := st.getD 2 0
  let d := st.getD 3 0
  let e := st.getD 4 0
  let f := st.getD 5 0
  let g := st.getD 6 0
  let h := st.getD 7 0
  let t1 := (h + bigS1 e + chFn e f g + wk.2 + wk.1) % U64
  let t2 := (bigS0 a + majFn a b c) % U64
  [(t1 + t2) % U64, a, b, c, (d + t1) % U64, e, f, g]

/-- SHA-512 compression of one 128-byte block into the running hash state. -/
def sha512Compress (H : List Nat) (block : List Nat) : List Nat :=
  let st := ((sha512Schedule block).zip sha512K).foldl sha512Round H
  (H.zip st).map (fun p => (p.1 + p.2) % U64)

/-- SHA-512 of a byte list: the final 8-word state. -/
def sha512Bytes (msg : List Nat) : List Nat :=
  let padded := sha512Pad msg
  (List.range (padded.length / 128)).foldl
    (fun H i => sha512Compress H ((padded.drop (128 * i)).take 128)) sha512H0

/-- Lowercase hexadecimal digit. -/
def hexDigit (n : Nat) : Char :=
  if n < 10 then Char.ofNat (48 + n) else Char.ofNat (87 + n)

/-- Uppercase hexadecimal digit (used by percent-encoding). -/
def hexDigitUpper (n : Nat) : Char :=
  if n < 10 then Char.ofNat (48 + n) else Char.ofNat (55 + n)

/-- The 16 lowercase hex digits of a 64-bit word. -/
def hexWord64 (v : Nat) : List Char :=
  (List.range 16).map (fun i => hexDigit ((v >>> (4 * (15 - i))) % 16))

/-- UTF-8 encoding of one character (Python `str.encode()`). -/
def utf8Encode (c : Char) : List Nat :=
  let n := c.toNat
  if n < 0x80 then [n]
  else if n < 0x800 then [0xc0 + n / 64, 0x80 + n % 64]
  else if n < 0x10000 then [0xe0 + n / 4096, 0x80 + (n / 64) % 64, 0x80 + n % 64]
  else [0xf0 + n / 262144, 0x80 + (n / 4096) % 64, 0x80 + (n / 64) % 64, 0x80 + n % 64]

/-- UTF-8 bytes of a string. -/
def strBytes (s : String) : List Nat := s.data.flatMap utf8Encode

/-- `hashlib.sha512(s.encode()).hexdigest()`: the lowercase hex digest of the
UTF-8 bytes of `s`. -/
def sha512hex (s : String) : String :=
  String.mk ((sha512Bytes (strBytes s)).flatMap hexWord64)

/-! ## `urllib.parse.urlencode` with the default `quote_plus` quoting -/

/-- Characters `urllib.parse.quote` never escapes: ASCII letters, digits,
and `_.-~`. -/
def alwaysSafe (c : Char) : Bool :=
  (c.isAlphanum && c.toNat < 128) || c == '_' || c == '.' || c == '-' || c == '~'

/-- `urllib.parse.quote_plus` with empty `safe`: safe characters kept, the
space mapped to `+`, every other character percent-encoded bytewise. -/
def quote_plus (s : String) : String :=
  String.mk (s.data.flatMap (fun c =>
    if alwaysSafe c then [c]
    else if c == ' ' then ['+']
    else (utf8Encode c).flatMap (fun b => ['%', hexDigitUpper (b / 16), hexDigitUpper (b % 16)])))

/-- `urllib.parse.urlencode(params)`: `k=v` pairs quoted with `quote_plus`
and joined by `&`, in the insertion order of the mapping. -/
def urlencode (params : List (String × String)) : String :=
  String.intercalate "&" (params.map (fun p => quote_plus p.1 ++ "=" ++ quote_plus p.2))

/-! ## `BithumbClient` (client.py) -/

/-- The JWT claim set built by `BithumbClient._create_headers`.  The
`query_hash` and `query_hash_alg` claims are present exactly when the
request carries parameters. -/
structure JwtPayload where
  access_key : String
  nonce : String
  timestamp : Nat
  query_hash : Option String
  query_hash_alg : Option String
deriving DecidableEq

/-- `BithumbClient._create_headers` (client.py, lines 29-53): the signed
claim set.  When `params` is non-empty (Python `if params:`), the SHA-512
hex digest of `urlencode(params)` is added as `query_hash` together with
`query_hash_alg = "SHA512"`.  The `nonce` (a fresh UUID4) and `timestamp`
are inputs here because they come from the environment. -/
def create_headers (access_key nonce : String) (timestamp : Nat)
    (params : List (String × String)) : JwtPayload :=
  if params.isEmpty then
    { access_key := access_key, nonce := nonce, timestamp := timestamp,
      query_hash := none, query_hash_alg := none }
  else
    { access_key := access_key, nonce := nonce, timestamp := timestamp,
      query_hash := some (sha512hex (urlencode params)),
      query_hash_alg := some "SHA512" }

/-- Parsed JSON values, the shape of every exchange response body. -/
inductive Json where
  | null
  | bool (b : Bool)
  | num (q : ℚ)
  | str (s : String)
  | arr (items : List Json)
  | obj (fields : List (String × Json))

/-- Python `"k" in d` on a parsed JSON value: key membership, `false` for
anything that is not an object. -/
def Json.hasKey (j : Json) (k : String) : Bool :=
  match j with
  | .obj fields => fields.any (fun f => f.1 == k)
  | _ => false

/-- Python `d.get(k)` on a parsed JSON value. -/
def Json.lookup (j : Json) (k : String) : Option Json :=
  match j with
  | .obj fields => (fields.find? (fun f => f.1 == k)).map (fun f => f.2)
  | _ => none

/-- The base URL of `BithumbClient`. -/
def api_url : String := "https://api.bithumb.com"

/-- The network-level outcome of one `requests` call: a raised timeout, a
raised connection error, a delivered response with a JSON body, or a
delivered response whose body is not valid JSON.  The `msg` fields carry
the `str(e)` text of the corresponding `requests` exception. -/
inductive HttpOutcome where
  | timeout (msg : String)
  | connError (msg : String)
  | response (status : Nat) (reason : String) (body : Json)
  | badJson (status : Nat) (reason : String) (msg : String)

/-- The message of the `requests.exceptions.HTTPError` raised by
`Response.raise_for_status()` for a 4xx/5xx status. -/
def httpErrorMsg (status : Nat) (reason url : String) : String :=
  toString status ++
    (if status < 500 then " Client Error: " else " Server Error: ") ++
    reason ++ " for url: " ++ url

/-- The shared body of `BithumbClient.get/post/delete` (client.py, lines
55-95): `raise_for_status()` raises `HTTPError` exactly for a status in
400-599, and every raised `requests.exceptions.RequestException` — timeout,
connection error, HTTP error, JSON decode error — is caught and turned into
the record `{"error": str(e)}`; otherwise `response.json()` is returned
verbatim. -/
def BithumbClient.request (url : String) (o : HttpOutcome) : Json :=
  match o with
  | .timeout m => Json.obj [("error", Json.str m)]
  | .connError m => Json.obj [("error", Json.str m)]
  | .response s reason body =>
      if 400 ≤ s && s < 600 then Json.obj [("error", Json.str (httpErrorMsg s reason url))]
      else body
  | .badJson s reason m =>
      if 400 ≤ s && s < 600 then Json.obj [("error", Json.str (httpErrorMsg s reason url))]
      else Json.obj [("error", Json.str m)]

/-- `BithumbClient.get`: a GET against `api_url ++ endpoint`, as a function
of the network outcome (the params affect only the signed headers). -/
def BithumbClient.get (endpoint : String) (_params : List (String × String))
    (o : HttpOutcome) : Json :=
  BithumbClient.request (api_url ++ endpoint) o

/-- `BithumbClient.post`: a POST against `api_url ++ endpoint`. -/
def BithumbClient.post (endpoint : String) (_data : List (String × String))
    (o : HttpOutcome) : Json :=
  BithumbClient.request (api_url ++ endpoint) o

/-- `BithumbClient.delete`: a DELETE against `api_url ++ endpoint`. -/
def BithumbClient.delete (endpoint : String) (_params : List (String × String))
    (o : HttpOutcome) : Json :=
  BithumbClient.request (api_url ++ endpoint) o

/-- Whether the outcome makes the client's `try` block raise a
`RequestException`: a timeout, a connection error, a 4xx/5xx status, or an
unparseable body. -/
def HttpOutcome.isTransportFailure (o : HttpOutcome) : Bool :=
  match o with
  | .timeout _ => true
  | .connError _ => true
  | .response s _ _ => 400 ≤ s && s < 600
  | .badJson _ _ _ => true

/-- The `str(e)` text of the exception raised for a failing outcome. -/
def HttpOutcome.failureMsg (url : String) (o : HttpOutcome) : String :=
  match o with
  | .timeout m => m
  | .connError m => m
  | .response s reason _ => httpErrorMsg s reason url
  | .badJson s reason m => if 400 ≤ s && s < 600 then httpErrorMsg s reason url else m

/-- The JSON body delivered by a non-failing outcome. -/
def HttpOutcome.deliveredBody (o : HttpOutcome) : Json :=
  match o with
  | .response _ _ b => b
  | _ => Json.null

/-! ## `Account` (account.py) -/

/-- One entry of the `/v1/accounts` response list.  The exchange reports
`balance` and `avg_buy_price` as decimal strings; `float` parses them, so
they are modelled as rationals.  `avg_buy_price` may be absent
(`j.get("avg_buy_price", 0)`). -/
structure BalanceRec where
  currency : String
  balance : ℚ
  avg_buy_price : Option ℚ
deriving DecidableEq

/-- Outcome of `Account.get_account_info` as seen by its callers: an error
record from the transport layer, a well-shaped list of balance records, or
a response of some other shape — iterating such a response inside
`get_coin_balance` raises, and the surrounding `except` catches it. -/
inductive AccountResp where
  | err (msg : String)
  | malformed
  | ok (recs : List BalanceRec)

/-- Python dict assignment `d[k] = v`: replace the value of an existing
key in place, otherwise append the new key at the end. -/
def dictSet (d : List (String × ℚ)) (k : String) (v : ℚ) : List (String × ℚ) :=
  if d.any (fun p => p.1 == k) then
    d.map (fun p => if p.1 == k then (k, v) else p)
  else
    d ++ [(k, v)]

/-- Python dict read `d.get(k)`. -/
def dictGet (d : List (String × ℚ)) (k : String) : Option ℚ :=
  (d.find? (fun p => p.1 == k)).map (fun p => p.2)

/-- `Account.get_coin_balance` (account.py, lines 65-101) together with its
effect on the `avg_buy_prices` cache.  Returns `(result, new cache)` where
`result = none` models the Python pair `(None, None)` (API error or raised
exception), `some (0, 0)` the "currency not held" pair, and
`some (balance, avg)` actual holdings; the cache entry is written only
when both the fetched average price and the balance are strictly
positive. -/
def Account.get_coin_balance (resp : AccountResp) (coin : String)
    (avg_buy_prices : List (String × ℚ)) :
    Option (ℚ × ℚ) × List (String × ℚ) :=
  match resp with
  | .err _ => (none, avg_buy_prices)
  | .malformed => (none, avg_buy_prices)
  | .ok recs =>
    match recs.filter (fun j => j.currency == coin) with
    | [] => (some (0, 0), avg_buy_prices)
    | r :: _ =>
      let balance := r.balance
      let avg_price := r.avg_buy_price.getD 0
      if 0 < avg_price ∧ 0 < balance then
        (some (balance, avg_price), dictSet avg_buy_prices coin avg_price)
      else
        (some (balance, avg_price), avg_buy_prices)

/-! ## `MarketData` (market.py) -/

/-- One element of the `/v1/ticker` response list; only `trade_price` is
read by `get_current_price`. -/
structure TickerRec where
  market : String
  trade_price : ℚ
deriving DecidableEq

/-- `MarketData.get_current_price` (market.py, lines 28-43): extracts
`data[0]["trade_price"]` from the parsed ticker list.  On an empty list the
Python indexing `data[0]` raises `IndexError`, modelled as `Except.error`
carrying the interpreter's message. -/
def MarketData.get_current_price (data : List TickerRec) : Except String ℚ :=
  match data with
  | [] => Except.error "IndexError: list index out of range"
  | x :: _ => Except.ok x.trade_price

/-- The two exceptions `MarketData._get_candle_data` raises while checking
the response shape.  `apiErr` carries `data.get("message", "Unknown error")`
(the exception text is that value appended to the Korean prefix for "API
error"); `shapeErr` carries the non-list response itself (the exception
text appends it to the Korean prefix for "response is not a list"). -/
inductive CandleErr where
  | apiErr (message : Json)
  | shapeErr (data : Json)

/-- Python `isinstance(data, dict) and "status" in data and
data["status"] != "0000"`: the response is an object whose `status` field
differs from the success sentinel (a non-string `status` value is never
equal to the string `"0000"`). -/
def badStatus (data : Json) : Bool :=
  match data with
  | .obj fields =>
    match fields.find? (fun f => f.1 == "status") with
    | some (_, Json.str s) => s != "0000"
    | some _ => true
    | none => false
  | _ => false

/-- Whether a JSON value is a list (`isinstance(data, list)`). -/
def Json.isArr (j : Json) : Bool :=
  match j with
  | .arr _ => true
  | _ => false

/-- The response check of `MarketData._get_candle_data` (market.py, lines
64-68): an object with a non-success `status` raises the API error with
`data.get("message", "Unknown error")`; any other non-list response raises
the shape error; a list is passed on to the DataFrame stage. -/
def MarketData.candle_response_check (data : Json) : Except CandleErr (List Json) :=
  if badStatus data then
    Except.error (CandleErr.apiErr ((data.lookup "message").getD (Json.str "Unknown error")))
  else
    match data with
    | .arr items => Except.ok items
    | _ => Except.error (CandleErr.shapeErr data)

/-- One raw candle object of a candle endpoint response, with the
exchange's verbose field names.  The last three fields are the optional
columns (kept only when present in the response). -/
structure RawCandle where
  candle_date_time_kst : String
  opening_price : ℚ
  trade_price : ℚ
  high_price : ℚ
  low_price : ℚ
  change_rate : Option ℚ
  candle_acc_trade_volume : Option ℚ
  candle_acc_trade_price : Option ℚ
deriving DecidableEq

/-- A normalized candle row after the `df.rename` / column-selection step
of `MarketData._get_candle_data`. -/
structure Candle where
  date : String
  «open» : ℚ
  close : ℚ
  high : ℚ
  low : ℚ
  change_rate : Option ℚ
  volume : Option ℚ
  value : Option ℚ
deriving DecidableEq

/-- The `df.rename(columns=...)` step (market.py, lines 70-84): field names
mapped into the normalized candle schema. -/
def renameCandle (r : RawCandle) : Candle :=
  { date := r.candle_date_time_kst, «open» := r.opening_price,
    close := r.trade_price, high := r.high_price, low := r.low_price,
    change_rate := r.change_rate, volume := r.candle_acc_trade_volume,
    value := r.candle_acc_trade_price }

/-- `pd.to_datetime` on the exchange's fixed-format ISO timestamps,
modelled as the number formed by the digits of the string in order
(for "YYYY-MM-DDTHH:MM:SS" this is the chronological key YYYYMMDDHHMMSS). -/
def parseDate (s : String) : Nat :=
  s.data.foldl (fun n c => if c.isDigit then 10 * n + (c.toNat - 48) else n) 0

/-- The sort key relation of `df.sort_values("date")`: ascending parsed
date. -/
def candleRel (a b : Candle) : Prop := parseDate a.date ≤ parseDate b.date

instance : DecidableRel candleRel := fun a b => Nat.decLe (parseDate a.date) (parseDate b.date)

instance : IsTotal Candle candleRel := ⟨fun _ _ => Nat.le_total _ _⟩

instance : IsTrans Candle candleRel := ⟨fun _ _ _ => Nat.le_trans⟩

/-- The DataFrame stage of `MarketData._get_candle_data` (market.py, lines
70-92): rename the raw fields, parse the dates, sort ascending by date and
reset to a dense 0-based row order (`reset_index(drop=True)`); in the list
model, row `i` of the result is element `i`. -/
def MarketData.candle_rows (raw : List RawCandle) : List Candle :=
  List.insertionSort candleRel (raw.map renameCandle)

/-- A concrete candle endpoint response of 5 rows with out-of-order
timestamps. -/
def outOfOrderCandles : List RawCandle :=
  [⟨"2024-01-03T09:00:00", 3, 3, 3, 3, none, none, none⟩,
   ⟨"2024-01-01T09:00:00", 1, 1, 1, 1, none, none, none⟩,
   ⟨"2024-01-05T09:00:00", 5, 5, 5, 5, none, none, none⟩,
   ⟨"2024-01-02T09:00:00", 2, 2, 2, 2, none, none, none⟩,
   ⟨"2024-01-04T09:00:00", 4, 4, 4, 4, none, none, none⟩]

/-! ## `Trading` (trading.py) -/

/-- Python `str()` on an order volume or price, for numbers whose shortest
decimal form is exact: an integer prints with no decimal point, a
non-integer rational prints sign, integer part, `.`, and the fraction
digits for the least power of ten clearing the denominator. -/
def pyStr (q : ℚ) : String :=
  if q.den = 1 then toString q.num
  else
    let k := ((List.range 65).filter (fun i => 10 ^ i % q.den == 0)).headD 64
    let n := q.num.natAbs * 10 ^ k / q.den
    let frac := Nat.toDigits 10 (n % 10 ^ k)
    (if q.num < 0 then "-" else "") ++ toString (n / 10 ^ k) ++ "." ++
      String.mk (List.replicate (k - frac.length) '0' ++ frac)

/-- `Trading._send_order` (trading.py, lines 25-67): the `(endpoint, body)`
of the POST it submits via `client.post("/v1/orders", data)`.  The body
always holds `market`, `side` and `ord_type`; a `limit` order appends the
stringified `volume` then `price` when supplied, a `price` (market-buy)
order appends only `price`, a `market` (market-sell) order appends only
`volume`, and any other `ord_type` appends nothing. -/
def Trading.send_order (market side : String) (volume price : Option ℚ)
    (ord_type : String) : String × List (String × String) :=
  let data := [("market", market), ("side", side), ("ord_type", ord_type)]
  let data :=
    if ord_type == "limit" then
      data ++ (match volume with | some v => [("volume", pyStr v)] | none => []) ++
        (match price with | some p => [("price", pyStr p)] | none => [])
    else if ord_type == "price" then
      data ++ (match price with | some p => [("price", pyStr p)] | none => [])
    else if ord_type == "market" then
      data ++ (match volume with | some v => [("volume", pyStr v)] | none => [])
    else data
  ("/v1/orders", data)

/-- `Trading.place_buy_order` (trading.py, lines 69-92): a buy is
`_send_order` with side `"bid"`. -/
def Trading.place_buy_order (market : String) (volume price : Option ℚ)
    (ord_type : String) : String × List (String × String) :=
  Trading.send_order market "bid" volume price ord_type

/-- `Trading.place_sell_order` (trading.py, lines 94-111): a sell is
`_send_order` with side `"ask"` and a mandatory volume. -/
def Trading.place_sell_order (market : String) (volume : ℚ) (price : Option ℚ)
    (ord_type : String) : String × List (String × String) :=
  Trading.send_order market "ask" (some volume) price ord_type

/-- `Trading.get_order_status` (trading.py, lines 128-144) applied to the
fields of the dictionary returned by `client.get("/v1/order", params)`:
`"error"` when the response contains the `error` key, otherwise
`result.get("state", "unknown")`. -/
def Trading.get_order_status (result : List (String × Json)) : Json :=
  if result.any (fun f => f.1 == "error") then Json.str "error"
  else ((result.find? (fun f => f.1 == "state")).map (fun f => f.2)).getD (Json.str "unknown")

/-! ## Theorems -/

/-- Replacing the value of a present key makes it the first hit of a key
search. -/
theorem find_map_replace (d : List (String × ℚ)) (k : String) (v : ℚ) :
    d.any (fun p => p.1 == k) = true →
    (d.map (fun p => if p.1 == k then (k, v) else p)).find? (fun p => p.1 == k) =
      some (k, v) := by
  induction d with
  | nil => intro h; simp at h
  | cons p tl ih =>
    intro h
    by_cases hp : (p.1 == k) = true
    · simp only [List.map_cons]
      rw [if_pos hp]
      exact List.find?_cons_of_pos _ (by simp)
    · have hp2 : (p.1 == k) = false := by simpa using hp
      simp only [List.any_cons, hp2, Bool.false_or] at h
      simp only [List.map_cons]
      rw [if_neg (by simp [hp2]), List.find?_cons_of_neg _ (by simp [hp2])]
      exact ih h

/-- Appending a fresh key makes it the first hit of a key search. -/
theorem find_append_new (d : List (String × ℚ)) (k : String) (v : ℚ) :
    d.any (fun p => p.1 == k) = false →
    (d ++ [(k, v)]).find? (fun p => p.1 == k) = some (k, v) := by
  induction d with
  | nil => intro _; simp
  | cons p tl ih =>
    intro h
    simp only [List.any_cons, Bool.or_eq_false_iff] at h
    rw [List.cons_append, List.find?_cons_of_neg _ (by simp [h.1])]
    exact ih h.2

/-- Reading back a key just written by Python dict assignment. -/
theorem dictGet_dictSet_self (d : List (String × ℚ)) (k : String) (v : ℚ) :
    dictGet (dictSet d k v) k = some v := by
  unfold dictGet dictSet
  cases ha : d.any (fun p => p.1 == k) with
  | true =>
    rw [if_pos rfl, find_map_replace d k v ha]
    rfl
  | false =>
    rw [if_neg (by simp), find_append_new d k v ha]
    rfl

/-- C7: placing a limit buy order for market "KRW-BTC" with volume 0.01 and
price 50000000 produces a POST to /v1/orders whose body holds exactly
market="KRW-BTC", side="bid", ord_type="limit", volume="0.01" and
price="50000000". -/
theorem place_buy_limit_body :
    Trading.place_buy_order "KRW-BTC" (some (1 / 100 : ℚ)) (some 50000000) "limit" =
      ("/v1/orders",
       [("market", "KRW-BTC"), ("side", "bid"), ("ord_type", "limit"),
        ("volume", "0.01"), ("price", "50000000")]) := by
  have h : (1 / 100 : ℚ) = mkRat 1 100 := by norm_num [mkRat]
  rw [h]
  decide

/-- C8: `get_current_price` on an empty ticker list fails with the raw
IndexError fault (no value and no error record), and on a non-empty list
returns the `trade_price` of the first element. -/
theorem get_current_price_cases (x : TickerRec) (rest : List TickerRec) :
    MarketData.get_current_price [] = Except.error "IndexError: list index out of range" ∧
    MarketData.get_current_price (x :: rest) = Except.ok x.trade_price :=
  ⟨rfl, rfl⟩

/-- C9: `get_order_status` returns "error" whenever the response contains
the error key, "unknown" whenever the order object has no state field, and
otherwise the value of the state field. -/
theorem get_order_status_cases (result : List (String × Json)) (p : String × Json) :
    (result.any (fun f => f.1 == "error") = true →
      Trading.get_order_status result = Json.str "error") ∧
    (result.any (fun f => f.1 == "error") = false →
      result.find? (fun f => f.1 == "state") = none →
      Trading.get_order_status result = Json.str "unknown") ∧
    (result.any (fun f => f.1 == "error") = false →
      result.find? (fun f => f.1 == "state") = some p →
      Trading.get_order_status result = p.2) := by
  refine ⟨fun h => ?_, fun h1 h2 => ?_, fun h1 h2 => ?_⟩
  · simp [Trading.get_order_status, h]
  · simp [Trading.get_order_status, h1, h2]
  · simp [Trading.get_order_status, h1, h2]

/-- Witness for C9: a response whose state field is "done". -/
theorem get_order_status_cases_witness :
    Trading.get_order_status [("state", Json.str "done")] = Json.str "done" :=
  (get_order_status_cases [("state", Json.str "done")] ("state", Json.str "done")).2.2 rfl rfl

/-- C10: for an ord_type outside limit/price/market, `_send_order` performs
no validation and posts a body holding exactly market, side and ord_type,
silently omitting any supplied volume and price; the same holds through
`place_buy_order` and `place_sell_order`. -/
theorem send_order_unknown_ord_type (m s : String) (v p : Option ℚ) (vol : ℚ)
    (t : String) (h1 : t ≠ "limit") (h2 : t ≠ "price") (h3 : t ≠ "market") :
    Trading.send_order m s v p t =
      ("/v1/orders", [("market", m), ("side", s), ("ord_type", t)]) ∧
    Trading.place_buy_order m v p t =
      ("/v1/orders", [("market", m), ("side", "bid"), ("ord_type", t)]) ∧
    Trading.place_sell_order m vol p t =
      ("/v1/orders", [("market", m), ("side", "ask"), ("ord_type", t)]) := by
  unfold Trading.place_buy_order Trading.place_sell_order Trading.send_order
  simp [h1, h2, h3]

/-- Witness for C10: an unrecognized ord_type "stop" with volume and price
supplied. -/
theorem send_order_unknown_ord_type_witness :
    Trading.send_order "KRW-BTC" "bid" (some 1) (some 2) "stop" =
      ("/v1/orders", [("market", "KRW-BTC"), ("side", "bid"), ("ord_type", "stop")]) :=
  (send_order_unknown_ord_type "KRW-BTC" "bid" (some 1) (some 2) 1 "stop"
    (by decide) (by decide) (by decide)).1

/-- C3: `get_coin_balance` has three outcomes that are never confused —
`(None, None)` exactly when the account fetch reports an error or the
handler's except branch fires, `(0, 0)` when the response is valid but
holds no record for the currency, and the real (balance, average buy
price) pair when the currency is held. -/
theorem get_coin_balance_three_outcomes (coin m : String) (cache : List (String × ℚ))
    (recs : List BalanceRec) (r : BalanceRec) (rest : List BalanceRec) :
    (Account.get_coin_balance (.err m) coin cache).1 = none ∧
    (Account.get_coin_balance .malformed coin cache).1 = none ∧
    (recs.filter (fun j => j.currency == coin) = [] →
      (Account.get_coin_balance (.ok recs) coin cache).1 = some (0, 0)) ∧
    (recs.filter (fun j => j.currency == coin) = r :: rest →
      (Account.get_coin_balance (.ok recs) coin cache).1 =
        some (r.balance, r.avg_buy_price.getD 0)) ∧
    (recs.filter (fun j => j.currency == coin) = [] →
      (Account.get_coin_balance (.ok recs) coin cache).1 ≠
        (Account.get_coin_balance (.err m) coin cache).1) := by
  refine ⟨rfl, rfl, fun h => ?_, fun h => ?_, fun h => ?_⟩
  · simp [Account.get_coin_balance, h]
  · simp [Account.get_coin_balance, h]
    split <;> rfl
  · simp [Account.get_coin_balance, h]

/-- Witness for C3: a held currency with balance 2 and average price 100. -/
theorem get_coin_balance_three_outcomes_witness :
    (Account.get_coin_balance (.ok [⟨"BTC", 2, some 100⟩]) "BTC" []).1 = some (2, 100) :=
  (get_coin_balance_three_outcomes "BTC" "boom" [] [⟨"BTC", 2, some 100⟩]
    ⟨"BTC", 2, some 100⟩ []).2.2.2.1 (by decide)

/-- C6: the average-price cache is written only when the fetched average
price and balance are both strictly positive — every other outcome (zero
price, zero balance, currency not held, error) leaves the cache
unchanged, and a cache read after the call returns either a strictly
positive freshly written price or the value already stored, so stale zero
data never overwrites a stored average price. -/
theorem get_coin_balance_cache (coin m : String) (cache : List (String × ℚ))
    (recs : List BalanceRec) (r : BalanceRec) (rest : List BalanceRec)
    (resp : AccountResp) (v : ℚ) :
    (Account.get_coin_balance (.err m) coin cache).2 = cache ∧
    (Account.get_coin_balance .malformed coin cache).2 = cache ∧
    (recs.filter (fun j => j.currency == coin) = [] →
      (Account.get_coin_balance (.ok recs) coin cache).2 = cache) ∧
    (recs.filter (fun j => j.currency == coin) = r :: rest →
      0 < r.avg_buy_price.getD 0 → 0 < r.balance →
      (Account.get_coin_balance (.ok recs) coin cache).2 =
        dictSet cache coin (r.avg_buy_price.getD 0)) ∧
    (recs.filter (fun j => j.currency == coin) = r :: rest →
      ¬ (0 < r.avg_buy_price.getD 0 ∧ 0 < r.balance) →
      (Account.get_coin_balance (.ok recs) coin cache).2 = cache) ∧
    (dictGet (Account.get_coin_balance resp coin cache).2 coin = some v →
      0 < v ∨ dictGet cache coin = some v) := by
  refine ⟨rfl, rfl, fun h => ?_, fun h h1 h2 => ?_, fun h h12 => ?_, fun hv => ?_⟩
  · simp [Account.get_coin_balance, h]
  · simp [Account.get_coin_balance, h, h1, h2]
  · simp [Account.get_coin_balance, h, h12]
  · cases resp with
    | err m2 => exact Or.inr hv
    | malformed => exact Or.inr hv
    | ok recs2 =>
      cases hf : recs2.filter (fun j => j.currency == coin) with
      | nil =>
        simp [Account.get_coin_balance, hf] at hv
        exact Or.inr hv
      | cons r2 rest2 =>
        by_cases hp : 0 < r2.avg_buy_price.getD 0 ∧ 0 < r2.balance
        · have hs : (Account.get_coin_balance (.ok recs2) coin cache).2 =
              dictSet cache coin (r2.avg_buy_price.getD 0) := by
            simp [Account.get_coin_balance, hf, hp]
          rw [hs, dictGet_dictSet_self] at hv
          exact Or.inl (Option.some.inj hv ▸ hp.1)
        · simp [Account.get_coin_balance, hf, hp] at hv
          exact Or.inr hv

/-- Witness for C6: a held coin with positive balance 1 and positive
average price 50 overwrites the stale cache entry 42. -/
theorem get_coin_balance_cache_witness :
    (Account.get_coin_balance (.ok [⟨"BTC", 1, some 50⟩]) "BTC" [("BTC", 42)]).2 =
      [("BTC", 50)] :=
  ((get_coin_balance_cache "BTC" "x" [("BTC", 42)] [⟨"BTC", 1, some 50⟩]
      ⟨"BTC", 1, some 50⟩ [] (.err "x") 0).2.2.2.1 (by decide) (by decide)
      (by decide)).trans (by decide)

/-- C4 counterexample: for the response with status "5100" the raised
error is the API error carrying only the server's message — the status
code "5100" appears nowhere in what the error carries. -/
theorem candle_status_error_counterexample :
    MarketData.candle_response_check
        (Json.obj [("status", Json.str "5100"), ("message", Json.str "Invalid Parameter.")]) =
      Except.error (CandleErr.apiErr (Json.str "Invalid Parameter.")) ∧
    ¬ ("5100".data <:+: "Invalid Parameter.".data) :=
  ⟨rfl, by decide⟩

/-- C4 (amended): an object response with a non-success status fails with
the API error carrying the server's message (default "Unknown error"; the
status code itself is not part of the error); the shape error is raised
exactly for non-list responses without such a status field; lists are
accepted. -/
theorem candle_response_check_cases (j : Json) (items : List Json) :
    (badStatus j = true →
      MarketData.candle_response_check j =
        Except.error (CandleErr.apiErr
          ((j.lookup "message").getD (Json.str "Unknown error")))) ∧
    (badStatus j = false → j.isArr = false →
      MarketData.candle_response_check j = Except.error (CandleErr.shapeErr j)) ∧
    (MarketData.candle_response_check (Json.arr items) = Except.ok items) := by
  refine ⟨fun h => ?_, fun h1 h2 => ?_, rfl⟩
  · simp [MarketData.candle_response_check, h]
  · simp [MarketData.candle_response_check, h1]
    cases j with
    | arr l => simp [Json.isArr] at h2
    | null => rfl
    | bool b => rfl
    | num q => rfl
    | str s => rfl
    | obj fields => rfl

/-- Witness for C4: an object with status "5100" and no message field
fails with the API error carrying the default message. -/
theorem candle_response_check_cases_witness :
    MarketData.candle_response_check (Json.obj [("status", Json.str "5100")]) =
      Except.error (CandleErr.apiErr (Json.str "Unknown error")) :=
  (candle_response_check_cases (Json.obj [("status", Json.str "5100")]) []).1 rfl

/-- C5: for every candle response list, in any time order, the normalized
rows are sorted ascending by parsed date and are a permutation of the
renamed input rows with the same length (in the list model, row `i` of the
result is element `i`, the dense 0-based order); in particular the 5
out-of-order example rows come back date-ascending at indices 0..4. -/
theorem candle_rows_sorted (raw : List RawCandle) :
    List.Sorted candleRel (MarketData.candle_rows raw) ∧
    (MarketData.candle_rows raw).Perm (raw.map renameCandle) ∧
    (MarketData.candle_rows raw).length = raw.length ∧
    (MarketData.candle_rows outOfOrderCandles).map (fun c => c.date) =
      ["2024-01-01T09:00:00", "2024-01-02T09:00:00", "2024-01-03T09:00:00",
       "2024-01-04T09:00:00", "2024-01-05T09:00:00"] := by
  refine ⟨List.sorted_insertionSort candleRel _, List.perm_insertionSort candleRel _, ?_, ?_⟩
  · exact ((List.perm_insertionSort candleRel _).length_eq).trans (by simp)
  · decide

/-- C2 counterexample: a delivered 302 response — a non-2xx status — with
a JSON body is returned verbatim by `BithumbClient.get`, not as the
uniform error record, and carries no error key. -/
theorem client_non2xx_counterexample :
    ¬ (200 ≤ 302 ∧ 302 < 300) ∧
    BithumbClient.get "/v1/accounts" []
        (HttpOutcome.response 302 "Found" (Json.obj [("currency", Json.str "KRW")])) =
      Json.obj [("currency", Json.str "KRW")] ∧
    (BithumbClient.get "/v1/accounts" []
        (HttpOutcome.response 302 "Found"
          (Json.obj [("currency", Json.str "KRW")]))).hasKey "error" = false :=
  ⟨by decide, rfl, rfl⟩

/-- C2 (amended): `get`, `post` and `delete` never raise — on a timeout, a
connection error, an unparseable body, or a 4xx/5xx status each returns
exactly the uniform record with the single error key; every other
delivered response is returned verbatim, so the error key distinguishes
failure whenever the success payload does not itself contain one. -/
theorem client_uniform_error (endpoint : String) (params : List (String × String))
    (o : HttpOutcome) :
    (o.isTransportFailure = true →
      BithumbClient.get endpoint params o =
        Json.obj [("error", Json.str (o.failureMsg (api_url ++ endpoint)))]) ∧
    (o.isTransportFailure = true →
      (BithumbClient.get endpoint params o).hasKey "error" = true) ∧
    (o.isTransportFailure = false →
      BithumbClient.get endpoint params o = o.deliveredBody) ∧
    (o.isTransportFailure = false → (o.deliveredBody).hasKey "error" = false →
      (BithumbClient.get endpoint params o).hasKey "error" = false) ∧
    BithumbClient.post endpoint params o = BithumbClient.get endpoint params o ∧
    BithumbClient.delete endpoint params o = BithumbClient.get endpoint params o := by
  cases o with
  | timeout m =>
    exact ⟨fun _ => rfl, fun _ => by simp [BithumbClient.get, BithumbClient.request, Json.hasKey],
      fun hf => by simp [HttpOutcome.isTransportFailure] at hf,
      fun hf _ => by simp [HttpOutcome.isTransportFailure] at hf, rfl, rfl⟩
  | connError m =>
    exact ⟨fun _ => rfl, fun _ => by simp [BithumbClient.get, BithumbClient.request, Json.hasKey],
      fun hf => by simp [HttpOutcome.isTransportFailure] at hf,
      fun hf _ => by simp [HttpOutcome.isTransportFailure] at hf, rfl, rfl⟩
  | response s reason body =>
    by_cases h : (400 ≤ s && s < 600) = true
    · simp [BithumbClient.get, BithumbClient.post, BithumbClient.delete, BithumbClient.request,
        HttpOutcome.isTransportFailure, HttpOutcome.failureMsg, HttpOutcome.deliveredBody,
        Json.hasKey, h]
    · have h2 : (400 ≤ s && s < 600) = false := by simpa using h
      simp [BithumbClient.get, BithumbClient.post, BithumbClient.delete, BithumbClient.request,
        HttpOutcome.isTransportFailure, HttpOutcome.failureMsg, HttpOutcome.deliveredBody,
        Json.hasKey, h2]
  | badJson s reason m =>
    by_cases h : (400 ≤ s && s < 600) = true
    · simp [BithumbClient.get, BithumbClient.post, BithumbClient.delete, BithumbClient.request,
        HttpOutcome.isTransportFailure, HttpOutcome.failureMsg, HttpOutcome.deliveredBody,
        Json.hasKey, h]
    · have h2 : (400 ≤ s && s < 600) = false := by simpa using h
      simp [BithumbClient.get, BithumbClient.post, BithumbClient.delete, BithumbClient.request,
        HttpOutcome.isTransportFailure, HttpOutcome.failureMsg, HttpOutcome.deliveredBody,
        Json.hasKey, h2]

/-- Witness for C2: a timeout produces exactly the uniform error record. -/
theorem client_uniform_error_witness :
    BithumbClient.get "/v1/accounts" [] (HttpOutcome.timeout "request timed out") =
      Json.obj [("error", Json.str "request timed out")] :=
  (client_uniform_error "/v1/accounts" [] (HttpOutcome.timeout "request timed out")).1 rfl

set_option maxRecDepth 100000 in
/-- C1 counterexample: the parameter mappings with pairs a=1, b=2 supplied
in the two insertion orders hold identical key/value pairs (they are
permutations of each other), yet `_create_headers` computes different
query_hash values for them, because `urlencode` preserves insertion order
and no sorting is applied before hashing. -/
theorem query_hash_order_counterexample :
    ([("b", "2"), ("a", "1")] : List (String × String)).Perm [("a", "1"), ("b", "2")] ∧
    (create_headers "ak" "nonce-1" 0 [("a", "1"), ("b", "2")]).query_hash ≠
      (create_headers "ak" "nonce-1" 0 [("b", "2"), ("a", "1")]).query_hash := by
  constructor
  · decide
  · decide

/-- C1 (amended): the query_hash is determined by the insertion-order
urlencoded query string — two parameter mappings that encode to the same
query string (and agree on emptiness) receive the same query_hash,
independently of nonce and timestamp; identical pairs in different
insertion orders may hash differently. -/
theorem query_hash_of_urlencode (ak n1 n2 : String) (ts1 ts2 : Nat)
    (p q : List (String × String)) (h0 : p.isEmpty = q.isEmpty)
    (h : urlencode p = urlencode q) :
    (create_headers ak n1 ts1 p).query_hash = (create_headers ak n2 ts2 q).query_hash := by
  by_cases hp : p.isEmpty
  · have hq : q.isEmpty = true := h0.symm.trans hp
    simp [create_headers, hp, hq]
  · have hp2 : p.isEmpty = false := by simpa using hp
    have hq2 : q.isEmpty = false := h0.symm.trans hp2
    simp [create_headers, hp2, hq2, h]

/-- Witness for C1: two calls with the same single-pair mapping but
different nonces and timestamps produce the same query_hash. -/
theorem query_hash_of_urlencode_witness :
    (create_headers "ak" "n1" 0 [("market", "KRW-BTC")]).query_hash =
      (create_headers "ak" "n2" 1 [("market", "KRW-BTC")]).query_hash :=
  query_hash_of_urlencode "ak" "n1" "n2" 0 1 [("market", "KRW-BTC")]
    [("market", "KRW-BTC")] rfl rfl
